import Mathlib

/-!
Shallow embedding of the beads-better-ui WebSocket server core
(`src/server/index.js`): the External Tool Gateway (`runBd`, `runBdJson`),
the Project Resolver (`resolveProjectPath`), the Seen-State Store
(mark-seen / mark-unseen), the Command Dispatcher (the per-message
handler), and the Broadcast Engine (`broadcastRefresh`).

External effects are passed in as explicit inputs:
the filesystem snapshot is a list of existing paths, each subprocess
invocation's outcome comes from an oracle `exec : List String → String →
SpawnOutcome`, the runtime's JSON parser is an oracle
`parse : String → Option Json`, and the seen-state file's current
contents are an input list. Each handler returns the reply it sends
(if any), the updated per-connection state, and the lists of subprocess
spawns, broadcast-refresh triggers and seen-file writes it performed.
-/

namespace BeadsUI

/-- A JSON value as this layer observes it: the server only ever checks
whether a decoded value is an array (`Array.isArray`) and extracts the
first element opaquely, so array structure is kept and every other value
is an opaque raw encoding. -/
inductive Json where
  | arr (items : List String)
  | other (raw : String)
deriving Repr, DecidableEq

/-- Result of one `bd` subprocess run: exit code plus fully buffered
stdout/stderr (source: `runBd`, src/server/index.js lines 102–123). -/
structure BdResult where
  code : Int
  stdout : String
  stderr : String
deriving Repr, DecidableEq

/-- Outcome of the underlying `child_process.spawn`: either the `error`
event fired (e.g. executable not found), or the `close` event fired with
an exit code (`none` models JavaScript `null`, reported when the child is
terminated by a signal) and the drained stdout/stderr text. -/
inductive SpawnOutcome where
  | spawnError
  | closed (code : Option Int) (stdout stderr : String)
deriving Repr, DecidableEq

/-- `runBd` (lines 102–123): the `error` handler resolves with the
sentinel `{code: 127, stdout: '', stderr: 'Command not found'}`; the
`close` handler resolves with `code || 0` (so a `null` exit code becomes
0) and the joined output buffers. The promise always resolves, mirrored
here by totality of the function. -/
def runBd : SpawnOutcome → BdResult
  | .spawnError => ⟨127, "", "Command not found"⟩
  | .closed code stdout stderr => ⟨code.getD 0, stdout, stderr⟩

/-- Result of `runBdJson`: the source returns `{ok: true, data}` or
`{ok: false, error}`. -/
inductive BdJson where
  | ok (data : Json)
  | fail (error : String)
deriving Repr, DecidableEq

/-- `runBdJson` (lines 126–136): nonzero exit code fails with the
captured stderr; on exit 0 it parses `result.stdout || '[]'` (empty
stdout is falsy, so the literal `"[]"` is parsed instead), and a parse
exception yields the fixed message `Invalid JSON`. -/
def runBdJson (parse : String → Option Json) (out : SpawnOutcome) : BdJson :=
  let result := runBd out
  if result.code ≠ 0 then
    .fail result.stderr
  else
    match parse (if result.stdout = "" then "[]" else result.stdout) with
    | some v => .ok v
    | none => .fail "Invalid JSON"

/-- A filesystem snapshot: the set of paths for which `existsSync` is
true, as a list. -/
abbrev FS := List String

/-- `existsSync` against the snapshot. -/
def existsSync (fs : FS) (p : String) : Bool := fs.contains p

/-- `path.join` restricted to the two-segment joins the server performs,
modeled as concatenation with a single separator. -/
def pjoin (a b : String) : String := a ++ "/" ++ b

/-- The characters of a string up to (excluding) the first `?`:
`s.split('?')[0]`. -/
def stripQuery (s : String) : String :=
  String.mk (s.toList.takeWhile (fun c => c ≠ '?'))

/-- `s.replace(/^\//, '')`: remove one leading slash if present. -/
def stripLeadingSlash (s : String) : String :=
  match s.toList with
  | '/' :: rest => String.mk rest
  | _ => s

/-- Whether a character list starts with the characters of `p`. -/
def listStartsWith (p : String) (l : List Char) : Bool :=
  p.toList.isPrefixOf l

/-- `resolved.split('/').pop()`: the final `/`-separated component. -/
def lastComponent (s : String) : String :=
  String.mk ((s.toList.reverse.takeWhile (fun c => c ≠ '/')).reverse)

/-- `SEARCH_PATHS` (lines 15–20): the fixed, ordered candidate parent
directories probed for short project names. -/
def SEARCH_PATHS (home : String) : List String :=
  [pjoin home "code", pjoin home "projects", pjoin home "Developer", pjoin home "dev"]

/-- The short-name probe loop of `resolveProjectPath` (lines 56–63):
return the first candidate `parent/name` whose `.beads` marker
subdirectory exists, in list order. -/
def searchShortName (fs : FS) (cleanPath : String) : List String → Option String
  | [] => none
  | sp :: rest =>
    let candidate := pjoin sp cleanPath
    if existsSync fs (pjoin candidate ".beads") then some candidate
    else searchShortName fs cleanPath rest

/-- `resolveProjectPath` (lines 39–64): strip one leading slash and any
query suffix; empty means no project; identifiers starting `Users/` or
`home/` are treated as absolute paths and checked directly for the
`.beads` marker; anything else is a short name probed through
`SEARCH_PATHS` in order. -/
def resolveProjectPath (fs : FS) (home : String) (urlPath : String) : Option String :=
  let cleanPath := stripQuery (stripLeadingSlash urlPath)
  if cleanPath = "" then none
  else if listStartsWith "Users/" cleanPath.toList || listStartsWith "home/" cleanPath.toList then
    let fullPath := "/" ++ cleanPath
    if existsSync fs (pjoin fullPath ".beads") then some fullPath else none
  else
    searchShortName fs cleanPath (SEARCH_PATHS home)

/-- The seen-file mutation of the mark-seen handler (lines 470–472):
append the id unless already present. -/
def markSeen (seen : List String) (issueId : String) : List String :=
  if seen.contains issueId then seen else seen ++ [issueId]

/-- The seen-file mutation of the mark-unseen handler (line 486):
`seen.filter(id => id !== issueId)`. -/
def markUnseen (seen : List String) (issueId : String) : List String :=
  seen.filter (fun i => i != issueId)

/-- The payload fields the handlers destructure. A missing field is
`none` (JavaScript `undefined`). -/
structure Payload where
  path : Option String := none
  id : Option String := none
  status : Option String := none
  priority : Option Int := none
  title : Option String := none
  type : Option String := none
  estimate : Option Int := none
  externalRef : Option String := none
  content : Option String := none
  label : Option String := none
  list : Option String := none
  description : Option String := none
  labels : Option (List String) := none
  parentId : Option String := none
deriving Repr, DecidableEq

/-- A parsed inbound envelope: the destructured `id`, `type`, `payload`
fields, each possibly absent. -/
structure Msg where
  id : Option String := none
  type : Option String := none
  payload : Option Payload := none
deriving Repr, DecidableEq

/-- JavaScript truthiness for an optional string field: present and
nonempty. -/
def truthy : Option String → Bool
  | none => false
  | some s => s ≠ ""

/-- `String(x)` on an optional numeric field: `undefined` stringifies to
the literal text `undefined`. -/
def jsStringInt : Option Int → String
  | none => "undefined"
  | some n => toString n

/-- A destructured optional string field placed directly into a `spawn`
argument vector: Node's async `spawn` coerces a non-string entry with
`ToString`, so an absent (`undefined`) field is passed to the tool as
the literal text `undefined`. -/
def jsArgString : Option String → String
  | none => "undefined"
  | some s => s

/-- The `type` interpolated into the unknown-type message: `undefined`
when the field is absent. -/
def jsShowType : Option String → String
  | none => "undefined"
  | some s => s

/-- A reply's `error` object. -/
structure ErrInfo where
  code : String
  message : String
deriving Repr, DecidableEq

/-- The shapes a reply `payload` takes across the handlers. `Json`
payloads relayed from the tool stay opaque. -/
inductive ReplyPayload where
  | null
  | projectInfo (path name : String)
  | snapshot (listKey : String) (items : Json)
  | record (item : Option String)
  | seenState (seen : List String)
  | opened
deriving Repr, DecidableEq

/-- A reply envelope as built by the handler: `response = {id, type, ok,
payload}` plus an optional error; absent `id`/`type` are dropped by
`JSON.stringify`. -/
structure Reply where
  id : Option String
  type : Option String
  ok : Bool
  payload : ReplyPayload
  error : Option ErrInfo
deriving Repr, DecidableEq

/-- Per-connection state from `clientData` (lines 196–200). -/
structure ClientState where
  projectPath : Option String
  subscriptions : List String
deriving Repr, DecidableEq

/-- One `spawn` call: command, argument vector, working directory. -/
structure Spawn where
  cmd : String
  args : List String
  cwd : Option String
deriving Repr, DecidableEq

/-- Everything one inbound message produces: the reply sent on this
connection (`none` when the message is dropped by the catch-all), the
updated connection state, the subprocess spawns performed by the handler
itself, the projects for which `broadcastRefresh` was triggered, the
seen-file writes, and whether the handler closed the socket (no handler
ever does). -/
structure HandleResult where
  reply : Option Reply
  client : ClientState
  spawns : List Spawn
  broadcasts : List String
  seenWrites : List (List String)
  closed : Bool
deriving Repr, DecidableEq

/-- Set `ok:false` with an error object on the pending response. -/
def errReply (response : Reply) (code message : String) : Reply :=
  { response with ok := false, error := some ⟨code, message⟩ }

/-- `subscriptions.add`: JavaScript `Set` insertion order semantics. -/
def addSub (l : List String) (x : String) : List String :=
  if l.contains x then l else l ++ [x]

/-- The `data[0]`-or-whole-value extraction used by show-issue and
add-comment: `Array.isArray(data) ? data[0] : data` (an empty array
gives `undefined`, modeled as `none`). -/
def detailOf : Json → ReplyPayload
  | .arr items => .record items.head?
  | .other raw => .record (some raw)

/-- The shared tail of every mutating handler (update-*, create-issue,
delete-issue, label-add/remove): run `bd`, on nonzero exit reply
`ok:false` with the command-specific error code and the captured stderr,
on exit 0 reply the pending success response and trigger
`broadcastRefresh(projectPath)`. -/
def runMutation (exec : List String → String → SpawnOutcome) (st : ClientState)
    (response : Reply) (projectPath : String) (args : List String)
    (errCode : String) : HandleResult :=
  let r := runBd (exec args projectPath)
  let sp := [Spawn.mk "bd" args (some projectPath)]
  if r.code ≠ 0 then ⟨some (errReply response errCode r.stderr), st, sp, [], [], false⟩
  else ⟨some response, st, sp, [projectPath], [], false⟩

/-- The `switch (type)` body of the message handler (lines 239–509),
reached with an effective project path already resolved. `pl` is
`payload || {}`. In the update-priority, label-add and label-remove
cases the source passes destructured fields into the `spawn` argument
vector with no local validation; an absent field is coerced by `spawn`
to the literal string `undefined`, so the tool is invoked regardless and
the reply follows its exit status. -/
def dispatchCommand (exec : List String → String → SpawnOutcome)
    (parse : String → Option Json) (seenFile : List String)
    (st : ClientState) (response : Reply) (projectPath : String)
    (t : Option String) (pl : Payload) : HandleResult :=
  if t = some "subscribe-list" then
    let listType := match pl.list with
      | some l => if l = "" then "all-issues" else l
      | none => "all-issues"
    let st2 := { st with subscriptions := addSub st.subscriptions listType }
    let args := ["list", "--json"]
    let sp := [Spawn.mk "bd" args (some projectPath)]
    match runBdJson parse (exec args projectPath) with
    | .ok data =>
      ⟨some { response with type := some "snapshot", payload := .snapshot listType data },
       st2, sp, [], [], false⟩
    | .fail e => ⟨some (errReply response "FETCH_ERROR" e), st2, sp, [], [], false⟩
  else if t = some "update-status" then
    if !(truthy pl.id && truthy pl.status) then
      ⟨some (errReply response "INVALID_PAYLOAD" "Missing id or status"), st, [], [], [], false⟩
    else
      runMutation exec st response projectPath
        ["update", pl.id.getD "", "--status", pl.status.getD ""] "UPDATE_ERROR"
  else if t = some "update-priority" then
    runMutation exec st response projectPath
      ["update", jsArgString pl.id, "--priority", jsStringInt pl.priority] "UPDATE_ERROR"
  else if t = some "update-title" then
    if !(truthy pl.id && truthy pl.title) then
      ⟨some (errReply response "INVALID_PAYLOAD" "Missing id or title"), st, [], [], [], false⟩
    else
      runMutation exec st response projectPath
        ["update", pl.id.getD "", "--title", pl.title.getD ""] "UPDATE_ERROR"
  else if t = some "update-type" then
    if !(truthy pl.id && truthy pl.type) then
      ⟨some (errReply response "INVALID_PAYLOAD" "Missing id or type"), st, [], [], [], false⟩
    else
      runMutation exec st response projectPath
        ["update", pl.id.getD "", "--type", pl.type.getD ""] "UPDATE_ERROR"
  else if t = some "update-estimate" then
    if !(truthy pl.id) then
      ⟨some (errReply response "INVALID_PAYLOAD" "Missing id"), st, [], [], [], false⟩
    else
      runMutation exec st response projectPath
        ["update", pl.id.getD "", "--estimate", toString (pl.estimate.getD 0)] "UPDATE_ERROR"
  else if t = some "update-external-ref" then
    if !(truthy pl.id) then
      ⟨some (errReply response "INVALID_PAYLOAD" "Missing id"), st, [], [], [], false⟩
    else
      runMutation exec st response projectPath
        ["update", pl.id.getD "", "--external-ref", pl.externalRef.getD ""] "UPDATE_ERROR"
  else if t = some "create-issue" then
    if !(truthy pl.title) then
      ⟨some (errReply response "INVALID_PAYLOAD" "Missing title"), st, [], [], [], false⟩
    else
      let args := ["create", pl.title.getD ""]
        ++ (if truthy pl.type then ["--type", pl.type.getD ""] else [])
        ++ (match pl.priority with
            | some p => ["--priority", toString p]
            | none => [])
        ++ (if truthy pl.description then ["--description", pl.description.getD ""] else [])
        ++ (match pl.labels with
            | some ls => if 0 < ls.length then ["--labels", String.intercalate "," ls] else []
            | none => [])
        ++ (if truthy pl.parentId then ["--parent", pl.parentId.getD ""] else [])
      runMutation exec st response projectPath args "CREATE_ERROR"
  else if t = some "label-add" then
    runMutation exec st response projectPath
      ["label", "add", jsArgString pl.id, jsArgString pl.label] "LABEL_ERROR"
  else if t = some "delete-issue" then
    if !(truthy pl.id) then
      ⟨some (errReply response "INVALID_PAYLOAD" "Missing id"), st, [], [], [], false⟩
    else
      runMutation exec st response projectPath
        ["delete", pl.id.getD "", "--force"] "DELETE_ERROR"
  else if t = some "label-remove" then
    runMutation exec st response projectPath
      ["label", "remove", jsArgString pl.id, jsArgString pl.label] "LABEL_ERROR"
  else if t = some "show-issue" then
    if !(truthy pl.id) then
      ⟨some (errReply response "INVALID_PAYLOAD" "Missing id"), st, [], [], [], false⟩
    else
      let args := ["show", pl.id.getD "", "--json"]
      let sp := [Spawn.mk "bd" args (some projectPath)]
      match runBdJson parse (exec args projectPath) with
      | .fail e => ⟨some (errReply response "SHOW_ERROR" e), st, sp, [], [], false⟩
      | .ok data => ⟨some { response with payload := detailOf data }, st, sp, [], [], false⟩
  else if t = some "add-comment" then
    if !(truthy pl.id && truthy pl.content) then
      ⟨some (errReply response "INVALID_PAYLOAD" "Missing id or content"), st, [], [], [], false⟩
    else
      let issueId := pl.id.getD ""
      let args1 := ["comments", "add", issueId, pl.content.getD ""]
      let sp1 := Spawn.mk "bd" args1 (some projectPath)
      let r := runBd (exec args1 projectPath)
      if r.code ≠ 0 then
        ⟨some (errReply response "COMMENT_ERROR" r.stderr), st, [sp1], [], [], false⟩
      else
        let args2 := ["show", issueId, "--json"]
        let sp2 := Spawn.mk "bd" args2 (some projectPath)
        match runBdJson parse (exec args2 projectPath) with
        | .ok data => ⟨some { response with payload := detailOf data }, st, [sp1, sp2], [], [], false⟩
        | .fail _ => ⟨some response, st, [sp1, sp2], [], [], false⟩
  else if t = some "get-seen" then
    ⟨some { response with payload := .seenState seenFile }, st, [], [], [], false⟩
  else if t = some "mark-seen" then
    if !(truthy pl.id) then
      ⟨some (errReply response "INVALID_PAYLOAD" "Missing id"), st, [], [], [], false⟩
    else
      let issueId := pl.id.getD ""
      let newSeen := markSeen seenFile issueId
      let writes := if seenFile.contains issueId then [] else [newSeen]
      ⟨some { response with payload := .seenState newSeen }, st, [], [], writes, false⟩
  else if t = some "mark-unseen" then
    if !(truthy pl.id) then
      ⟨some (errReply response "INVALID_PAYLOAD" "Missing id"), st, [], [], [], false⟩
    else
      let newSeen := markUnseen seenFile (pl.id.getD "")
      ⟨some { response with payload := .seenState newSeen }, st, [], [], [newSeen], false⟩
  else if t = some "get-project-info" then
    ⟨some { response with payload := .projectInfo projectPath (lastComponent projectPath) },
     st, [], [], [], false⟩
  else if t = some "open-in-finder" then
    ⟨some { response with payload := .opened }, st, [Spawn.mk "open" [projectPath] none],
     [], [], false⟩
  else
    ⟨some (errReply response "UNKNOWN_TYPE" ("Unknown message type: " ++ jsShowType t)),
     st, [], [], [], false⟩

/-- The whole message handler (lines 202–515) for one well-formed JSON
message: build the pending response `{id, type, ok: true, payload:
null}`; handle `set-project` by resolving and storing the binding (a
`set-project` whose `payload.path` is absent throws inside
`resolveProjectPath` and is dropped by the catch-all, with no reply and
no state change); otherwise compute the effective project — a truthy
`payload.path` resolved ad hoc, else the stored binding — replying
`NO_PROJECT` when there is none, and dispatch to the command switch. -/
def handleMessage (fs : FS) (home : String)
    (exec : List String → String → SpawnOutcome) (parse : String → Option Json)
    (seenFile : List String) (st : ClientState) (m : Msg) : HandleResult :=
  let response : Reply := { id := m.id, type := m.type, ok := true, payload := .null, error := none }
  if m.type = some "set-project" then
    match m.payload.bind Payload.path with
    | none => ⟨none, st, [], [], [], false⟩
    | some p =>
      match resolveProjectPath fs home p with
      | some resolved =>
        ⟨some { response with payload := .projectInfo resolved (lastComponent resolved) },
         { st with projectPath := some resolved }, [], [], [], false⟩
      | none =>
        ⟨some (errReply response "INVALID_PROJECT" ("Not a beads project: " ++ p)),
         st, [], [], [], false⟩
  else
    let effPath := match m.payload.bind Payload.path with
      | some p => if p = "" then st.projectPath else resolveProjectPath fs home p
      | none => st.projectPath
    match effPath with
    | none =>
      ⟨some (errReply response "NO_PROJECT"
          "No project path set. Send set-project first or include path in payload."),
       st, [], [], [], false⟩
    | some projectPath =>
      dispatchCommand exec parse seenFile st response projectPath m.type (m.payload.getD {})

/-- An inbound WebSocket frame: either text that `JSON.parse` rejects,
or a parsed envelope. -/
inductive Frame where
  | notJson
  | json (m : Msg)
deriving Repr, DecidableEq

/-- The `ws.on('message')` boundary: a frame that fails to parse as JSON
throws inside the try block, the catch-all logs and sends nothing, and
the connection state is untouched. -/
def handleFrame (fs : FS) (home : String)
    (exec : List String → String → SpawnOutcome) (parse : String → Option Json)
    (seenFile : List String) (st : ClientState) : Frame → HandleResult
  | .notJson => ⟨none, st, [], [], [], false⟩
  | .json m => handleMessage fs home exec parse seenFile st m

/-- A live server-side view of one connection for the Broadcast Engine:
`readyState` and the `clientData` entry (a `WeakMap` lookup, possibly
absent). -/
structure Conn where
  readyState : Nat
  data : Option ClientState
deriving Repr, DecidableEq

/-- The recipient filter of `broadcastRefresh` (lines 535–543): open
connections whose stored `projectPath` is strictly equal to the
broadcast's project. -/
def snapshotRecipients (clients : List Conn) (projectPath : String) : List Conn :=
  clients.filter (fun c =>
    c.readyState == 1 &&
    match c.data with
    | some d => d.projectPath == some projectPath
    | none => false)

/-- `broadcastRefresh` (lines 524–544): fetch the list via the Gateway;
on failure send nothing; on success send the snapshot push to exactly
the filtered recipients. Returns the connections the push is sent to. -/
def broadcastRefresh (exec : List String → String → SpawnOutcome)
    (parse : String → Option Json) (clients : List Conn)
    (projectPath : String) : List Conn :=
  match runBdJson parse (exec ["list", "--json"] projectPath) with
  | .fail _ => []
  | .ok _ => snapshotRecipients clients projectPath

/-- A concrete stand-in for the runtime JSON parser, used to evaluate
the embedding at concrete inputs: it knows the one fact the server's
code path depends on, that the literal `"[]"` decodes to the empty
array. -/
def parseStub : String → Option Json :=
  fun s => if s = "[]" then some (.arr []) else none

/-- A degenerate subprocess oracle for concrete evaluation: every
invocation exits 0 with empty output. -/
def exec0 : List String → String → SpawnOutcome :=
  fun _ _ => .closed (some 0) "" ""

/-- A subprocess oracle for concrete evaluation on the failure path:
every invocation exits 1 with stderr text `boom`. -/
def execFail : List String → String → SpawnOutcome :=
  fun _ _ => .closed (some 1) "" "boom"

end BeadsUI
namespace BeadsUI

/-- C3 counterexample: on exit code 0 with empty stdout, `runBdJson`
succeeds with the empty array (the source parses `stdout || '[]'`), so
empty stdout is not a parse failure as the claim states. -/
theorem c3_counterexample :
    runBdJson parseStub (.closed (some 0) "" "") = .ok (.arr []) := by decide

/-- C3 (amended): any nonzero exit code fails with the captured stderr;
on exit 0 a nonempty unparsable stdout is the parse failure `Invalid
JSON`, distinct from the tool-failure message, while empty stdout is
defaulted to the literal `"[]"` and succeeds with the empty array. -/
theorem c3_invokeJson_classification (parse : String → Option Json) (out : SpawnOutcome) :
    ((runBd out).code ≠ 0 → runBdJson parse out = .fail (runBd out).stderr) ∧
    ((runBd out).code = 0 → (runBd out).stdout ≠ "" → parse (runBd out).stdout = none →
      runBdJson parse out = .fail "Invalid JSON") ∧
    ((runBd out).code = 0 → (runBd out).stdout = "" → parse "[]" = some (.arr []) →
      runBdJson parse out = .ok (.arr [])) := by
  refine ⟨fun h => ?_, fun h0 hne hp => ?_, fun h0 he hp => ?_⟩
  · unfold runBdJson
    simp [h]
  · unfold runBdJson
    simp [h0, hne, hp]
  · unfold runBdJson
    simp [h0, he, hp]

/-- C3 witness: the classification evaluated at concrete outcomes. -/
theorem c3_witness :
    ((runBd (.closed (some 1) "" "boom")).code ≠ 0 ∧
      runBdJson parseStub (.closed (some 1) "" "boom") = .fail (runBd (.closed (some 1) "" "boom")).stderr) ∧
    ((runBd (.closed (some 0) "x" "")).code = 0 ∧ (runBd (.closed (some 0) "x" "")).stdout ≠ "" ∧
      parseStub "x" = none ∧
      runBdJson parseStub (.closed (some 0) "x" "") = .fail "Invalid JSON") :=
  ⟨⟨by decide, (c3_invokeJson_classification parseStub (.closed (some 1) "" "boom")).1 (by decide)⟩,
   ⟨by decide, by decide, by decide,
    (c3_invokeJson_classification parseStub (.closed (some 0) "x" "")).2.1 (by decide) (by decide) (by decide)⟩⟩

/-- C4 counterexample: with prior seen set `["a"]`, mark-seen of `"a"`
followed by mark-unseen of `"a"` yields `[]`, not the prior state. -/
theorem c4_counterexample :
    markUnseen (markSeen ["a"] "a") "a" ≠ ["a"] := by decide

/-- C4 (amended): mark-seen is idempotent on the seen set; mark-unseen
after mark-seen restores the prior seen set exactly when the id was not
already present; and the mark-seen / mark-unseen handlers leave the
seen file holding `markSeen` / `markUnseen` of its prior contents. -/
theorem c4_seen_idempotent_restore (s : List String) (i : String) :
    (markSeen (markSeen s i) i = markSeen s i) ∧
    (s.contains i = false → markUnseen (markSeen s i) i = s) ∧
    (∀ exec parse st response proj, i ≠ "" →
      ((dispatchCommand exec parse s st response proj (some "mark-seen")
          { id := some i }).seenWrites.getLast?.getD s = markSeen s i ∧
       (dispatchCommand exec parse s st response proj (some "mark-unseen")
          { id := some i }).seenWrites.getLast?.getD s = markUnseen s i)) := by
  refine ⟨?_, fun h => ?_, fun exec parse st response proj hi => ⟨?_, ?_⟩⟩
  · by_cases hc : i ∈ s
    · simp [markSeen, hc]
    · simp [markSeen, hc]
  · have hmem : i ∉ s := by simpa using h
    have hfs : s.filter (fun x => x != i) = s := by
      refine List.filter_eq_self.mpr ?_
      intro a ha
      simp only [bne_iff_ne, ne_eq, decide_eq_true_eq]
      exact fun heq => hmem (heq ▸ ha)
    unfold markUnseen markSeen
    rw [if_neg (by simpa using hmem)]
    rw [List.filter_append, hfs]
    simp
  · simp only [dispatchCommand, truthy, hi]
    simp [markSeen, hi]
    by_cases hc : i ∈ s
    · simp [hc]
    · simp [hc]
  · simp only [dispatchCommand, truthy, hi]
    simp [hi]

/-- C4 witness: the amended statement evaluated at a concrete prior
state where the id is fresh. -/
theorem c4_witness :
    (markSeen (markSeen ["b"] "a") "a" = markSeen ["b"] "a") ∧
    (List.contains ["b"] "a" = false ∧ markUnseen (markSeen ["b"] "a") "a" = ["b"]) ∧
    ("a" ≠ "" ∧
      (dispatchCommand exec0 parseStub ["b"] ⟨some "/p", []⟩
          ⟨some "1", some "mark-seen", true, .null, none⟩ "/p" (some "mark-seen")
          { id := some "a" }).seenWrites.getLast?.getD ["b"] = markSeen ["b"] "a") :=
  ⟨(c4_seen_idempotent_restore ["b"] "a").1,
   ⟨by decide, (c4_seen_idempotent_restore ["b"] "a").2.1 (by decide)⟩,
   ⟨by decide,
    ((c4_seen_idempotent_restore ["b"] "a").2.2 exec0 parseStub ⟨some "/p", []⟩
      ⟨some "1", some "mark-seen", true, .null, none⟩ "/p" (by decide)).1⟩⟩

/-- C10 (confirmed): `runBd` resolves the spawn `error` event with the
sentinel 127 and the fixed message; a `close` with a `null` exit code
resolves with code 0 and the drained output; and therefore `runBdJson`
never classifies such an outcome as a tool failure — the only failure it
can still report is the parse failure `Invalid JSON`. -/
theorem c10_runBd_sentinels :
    (runBd .spawnError = ⟨127, "", "Command not found"⟩) ∧
    (∀ stdout stderr, runBd (.closed none stdout stderr) = ⟨0, stdout, stderr⟩) ∧
    (∀ parse stdout stderr e,
      runBdJson parse (.closed none stdout stderr) = .fail e → e = "Invalid JSON") := by
  refine ⟨rfl, fun _ _ => rfl, fun parse stdout stderr e h => ?_⟩
  unfold runBdJson runBd at h
  simp only [Option.getD_none, ne_eq, not_true_eq_false, reduceIte] at h
  split at h
  · simp at h
  · injection h with h2
    exact h2.symm

/-- C10 witness: the sentinel classification evaluated concretely. -/
theorem c10_witness :
    runBdJson parseStub (.closed none "x" "boom") = .fail "Invalid JSON" ∧
    "Invalid JSON" = "Invalid JSON" :=
  ⟨by decide, c10_runBd_sentinels.2.2 parseStub "x" "boom" "Invalid JSON" (by decide)⟩

/-- C5 (confirmed): every connection a broadcast-refresh push for
project `projectPath` is sent to is open and carries a registry entry
bound to exactly that project — never a different project, never an
absent binding. -/
theorem c5_broadcast_isolation (exec : List String → String → SpawnOutcome)
    (parse : String → Option Json) (clients : List Conn) (projectPath : String) (c : Conn)
    (h : c ∈ broadcastRefresh exec parse clients projectPath) :
    c.readyState = 1 ∧ ∃ d, c.data = some d ∧ d.projectPath = some projectPath := by
  unfold broadcastRefresh at h
  split at h
  · simp at h
  · unfold snapshotRecipients at h
    rw [List.mem_filter] at h
    obtain ⟨-, hc⟩ := h
    rw [Bool.and_eq_true] at hc
    obtain ⟨hr, hd⟩ := hc
    refine ⟨by simpa using hr, ?_⟩
    rcases hdata : c.data with _ | d
    · rw [hdata] at hd
      simp at hd
    · rw [hdata] at hd
      simp at hd
      exact ⟨d, rfl, hd⟩

/-- C5 witness: a live connection bound to the broadcast project
receives the push and satisfies the isolation property. -/
theorem c5_witness :
    Conn.mk 1 (some ⟨some "/p", []⟩) ∈ broadcastRefresh exec0 parseStub
      [⟨1, some ⟨some "/p", []⟩⟩, ⟨1, some ⟨some "/q", []⟩⟩, ⟨1, none⟩] "/p" ∧
    ((Conn.mk 1 (some ⟨some "/p", []⟩)).readyState = 1 ∧
      ∃ d, (Conn.mk 1 (some ⟨some "/p", []⟩)).data = some d ∧ d.projectPath = some "/p") :=
  ⟨by decide,
   c5_broadcast_isolation exec0 parseStub
     [⟨1, some ⟨some "/p", []⟩⟩, ⟨1, some ⟨some "/q", []⟩⟩, ⟨1, none⟩] "/p"
     (Conn.mk 1 (some ⟨some "/p", []⟩)) (by decide)⟩

end BeadsUI
namespace BeadsUI

/-- The probe loop hits `some p` exactly when the candidate list splits
as `l1 ++ sp :: l2` with `p` built from `sp`, `sp`'s marker existing,
and every earlier candidate's marker absent: first match in declared
order. -/
theorem searchShortName_eq_some_iff (fs : FS) (c : String) (l : List String) (p : String) :
    searchShortName fs c l = some p ↔
      ∃ l1 sp l2, l = l1 ++ sp :: l2 ∧ p = pjoin sp c ∧
        existsSync fs (pjoin (pjoin sp c) ".beads") = true ∧
        ∀ sp' ∈ l1, existsSync fs (pjoin (pjoin sp' c) ".beads") = false := by
  induction l with
  | nil => simp [searchShortName]
  | cons a l ih =>
    unfold searchShortName
    by_cases h : existsSync fs (pjoin (pjoin a c) ".beads") = true
    · simp only [h, if_true, Option.some.injEq]
      constructor
      · rintro rfl
        exact ⟨[], a, l, rfl, rfl, h, by simp⟩
      · rintro ⟨l1, sp, l2, heq, rfl, hm, hall⟩
        cases l1 with
        | nil =>
          simp at heq
          rw [heq.1]
        | cons b l1 =>
          simp at heq
          have hb := hall b (by simp)
          rw [← heq.1] at hb
          simp [h] at hb
    · rw [if_neg h]
      rw [ih]
      constructor
      · rintro ⟨l1, sp, l2, heq, rfl, hm, hall⟩
        refine ⟨a :: l1, sp, l2, by rw [heq]; rfl, rfl, hm, ?_⟩
        intro sp' hsp'
        rcases List.mem_cons.mp hsp' with h1 | h2
        · rw [h1]
          exact Bool.eq_false_iff.mpr h
        · exact hall sp' h2
      · rintro ⟨l1, sp, l2, heq, rfl, hm, hall⟩
        cases l1 with
        | nil =>
          simp at heq
          rw [heq.1] at h
          cases h hm
        | cons b l1 =>
          simp at heq
          exact ⟨l1, sp, l2, heq.2, rfl, hm, fun sp' hsp' => hall sp' (by simp [hsp'])⟩

/-- The probe loop returns `none` exactly when no candidate's marker
exists. -/
theorem searchShortName_eq_none_iff (fs : FS) (c : String) (l : List String) :
    searchShortName fs c l = none ↔
      ∀ sp ∈ l, existsSync fs (pjoin (pjoin sp c) ".beads") = false := by
  induction l with
  | nil => simp [searchShortName]
  | cons a l ih =>
    unfold searchShortName
    by_cases h : existsSync fs (pjoin (pjoin a c) ".beads") = true
    · simp [h]
    · rw [if_neg h]
      rw [ih]
      simp only [List.mem_cons]
      constructor
      · rintro hall sp (rfl | hm)
        · exact Bool.eq_false_iff.mpr h
        · exact hall sp hm
      · intro hall sp hm
        exact hall sp (Or.inr hm)

/-- C6 (confirmed): for an identifier whose cleaned form is nonempty and
not treated as an absolute path, resolution is a pure function of the
snapshot (repeated calls agree definitionally), it equals the ordered
probe over `SEARCH_PATHS`, a `some` answer is exactly the first declared
candidate whose `.beads` marker exists, and `none` is returned exactly
when no candidate matches. -/
theorem c6_resolver_first_match (fs : FS) (home : String) (idf : String)
    (hne : stripQuery (stripLeadingSlash idf) ≠ "")
    (habs : (listStartsWith "Users/" (stripQuery (stripLeadingSlash idf)).toList ||
             listStartsWith "home/" (stripQuery (stripLeadingSlash idf)).toList) = false) :
    (resolveProjectPath fs home idf = resolveProjectPath fs home idf) ∧
    (resolveProjectPath fs home idf
      = searchShortName fs (stripQuery (stripLeadingSlash idf)) (SEARCH_PATHS home)) ∧
    (∀ p, resolveProjectPath fs home idf = some p ↔
      ∃ l1 sp l2, SEARCH_PATHS home = l1 ++ sp :: l2 ∧
        p = pjoin sp (stripQuery (stripLeadingSlash idf)) ∧
        existsSync fs (pjoin (pjoin sp (stripQuery (stripLeadingSlash idf))) ".beads") = true ∧
        ∀ sp' ∈ l1,
          existsSync fs (pjoin (pjoin sp' (stripQuery (stripLeadingSlash idf))) ".beads") = false) ∧
    (resolveProjectPath fs home idf = none ↔
      ∀ sp ∈ SEARCH_PATHS home,
        existsSync fs (pjoin (pjoin sp (stripQuery (stripLeadingSlash idf))) ".beads") = false) := by
  have hred : resolveProjectPath fs home idf
      = searchShortName fs (stripQuery (stripLeadingSlash idf)) (SEARCH_PATHS home) := by
    unfold resolveProjectPath
    rw [if_neg hne]
    rw [habs]
    rfl
  refine ⟨rfl, hred, fun p => ?_, ?_⟩
  · rw [hred]
    exact searchShortName_eq_some_iff fs _ (SEARCH_PATHS home) p
  · rw [hred]
    exact searchShortName_eq_none_iff fs _ (SEARCH_PATHS home)

/-- C6 witness: with markers under both `~/projects/demo` and
`~/dev/demo`, resolving the short name `demo` picks `~/projects/demo`,
the earlier candidate in declared order. -/
theorem c6_witness :
    (stripQuery (stripLeadingSlash "/demo") ≠ "" ∧
     (listStartsWith "Users/" (stripQuery (stripLeadingSlash "/demo")).toList ||
      listStartsWith "home/" (stripQuery (stripLeadingSlash "/demo")).toList) = false) ∧
    (resolveProjectPath ["/h/projects/demo/.beads", "/h/dev/demo/.beads"] "/h" "/demo"
        = some "/h/projects/demo" ↔
      ∃ l1 sp l2, SEARCH_PATHS "/h" = l1 ++ sp :: l2 ∧
        "/h/projects/demo" = pjoin sp (stripQuery (stripLeadingSlash "/demo")) ∧
        existsSync ["/h/projects/demo/.beads", "/h/dev/demo/.beads"]
          (pjoin (pjoin sp (stripQuery (stripLeadingSlash "/demo"))) ".beads") = true ∧
        ∀ sp' ∈ l1,
          existsSync ["/h/projects/demo/.beads", "/h/dev/demo/.beads"]
            (pjoin (pjoin sp' (stripQuery (stripLeadingSlash "/demo"))) ".beads") = false) :=
  ⟨⟨by decide, by decide⟩,
   (c6_resolver_first_match ["/h/projects/demo/.beads", "/h/dev/demo/.beads"] "/h" "/demo"
      (by decide) (by decide)).2.2.1 "/h/projects/demo"⟩

end BeadsUI
namespace BeadsUI

/-- Helper: `runMutation` never closes the socket. -/
theorem runMutation_closed (exec : List String → String → SpawnOutcome) (st : ClientState)
    (response : Reply) (projectPath : String) (args : List String) (errCode : String) :
    (runMutation exec st response projectPath args errCode).closed = false := by
  unfold runMutation
  dsimp only
  split <;> rfl

/-- Helper: `runMutation` leaves the connection state untouched. -/
theorem runMutation_projectPath (exec : List String → String → SpawnOutcome) (st : ClientState)
    (response : Reply) (projectPath : String) (args : List String) (errCode : String) :
    (runMutation exec st response projectPath args errCode).client.projectPath
      = st.projectPath := by
  unfold runMutation
  dsimp only
  split <;> rfl

set_option linter.unreachableTactic false in
set_option linter.unusedTactic false in
/-- Helper: no arm of the command switch closes the socket. -/
theorem dispatchCommand_closed (exec : List String → String → SpawnOutcome)
    (parse : String → Option Json) (seenFile : List String) (st : ClientState)
    (response : Reply) (projectPath : String) (t : Option String) (pl : Payload) :
    (dispatchCommand exec parse seenFile st response projectPath t pl).closed = false := by
  rcases t with _ | s
  · rfl
  · by_cases h0 : s = "subscribe-list"
    · subst h0
      simp only [dispatchCommand, Option.some.injEq, String.reduceEq, reduceIte]
      repeat' split
      all_goals first | rfl | exact runMutation_closed ..
    · by_cases h1 : s = "update-status"
      · subst h1
        simp only [dispatchCommand, Option.some.injEq, String.reduceEq, reduceIte]
        repeat' split
        all_goals first | rfl | exact runMutation_closed ..
      · by_cases h2 : s = "update-priority"
        · subst h2
          simp only [dispatchCommand, Option.some.injEq, String.reduceEq, reduceIte]
          repeat' split
          all_goals first | rfl | exact runMutation_closed ..
        · by_cases h3 : s = "update-title"
          · subst h3
            simp only [dispatchCommand, Option.some.injEq, String.reduceEq, reduceIte]
            repeat' split
            all_goals first | rfl | exact runMutation_closed ..
          · by_cases h4 : s = "update-type"
            · subst h4
              simp only [dispatchCommand, Option.some.injEq, String.reduceEq, reduceIte]
              repeat' split
              all_goals first | rfl | exact runMutation_closed ..
            · by_cases h5 : s = "update-estimate"
              · subst h5
                simp only [dispatchCommand, Option.some.injEq, String.reduceEq, reduceIte]
                repeat' split
                all_goals first | rfl | exact runMutation_closed ..
              · by_cases h6 : s = "update-external-ref"
                · subst h6
                  simp only [dispatchCommand, Option.some.injEq, String.reduceEq, reduceIte]
                  repeat' split
                  all_goals first | rfl | exact runMutation_closed ..
                · by_cases h7 : s = "create-issue"
                  · subst h7
                    simp only [dispatchCommand, Option.some.injEq, String.reduceEq, reduceIte]
                    repeat' split
                    all_goals first | rfl | exact runMutation_closed ..
                  · by_cases h8 : s = "label-add"
                    · subst h8
                      simp only [dispatchCommand, Option.some.injEq, String.reduceEq, reduceIte]
                      repeat' split
                      all_goals first | rfl | exact runMutation_closed ..
                    · by_cases h9 : s = "delete-issue"
                      · subst h9
                        simp only [dispatchCommand, Option.some.injEq, String.reduceEq, reduceIte]
                        repeat' split
                        all_goals first | rfl | exact runMutation_closed ..
                      · by_cases h10 : s = "label-remove"
                        · subst h10
                          simp only [dispatchCommand, Option.some.injEq, String.reduceEq, reduceIte]
                          repeat' split
                          all_goals first | rfl | exact runMutation_closed ..
                        · by_cases h11 : s = "show-issue"
                          · subst h11
                            simp only [dispatchCommand, Option.some.injEq, String.reduceEq, reduceIte]
                            repeat' split
                            all_goals first | rfl | exact runMutation_closed ..
                          · by_cases h12 : s = "add-comment"
                            · subst h12
                              simp only [dispatchCommand, Option.some.injEq, String.reduceEq, reduceIte]
                              repeat' split
                              all_goals first | rfl | exact runMutation_closed ..
                            · by_cases h13 : s = "get-seen"
                              · subst h13
                                simp only [dispatchCommand, Option.some.injEq, String.reduceEq, reduceIte]
                                repeat' split
                                all_goals first | rfl | exact runMutation_closed ..
                              · by_cases h14 : s = "mark-seen"
                                · subst h14
                                  simp only [dispatchCommand, Option.some.injEq, String.reduceEq, reduceIte]
                                  repeat' split
                                  all_goals first | rfl | exact runMutation_closed ..
                                · by_cases h15 : s = "mark-unseen"
                                  · subst h15
                                    simp only [dispatchCommand, Option.some.injEq, String.reduceEq, reduceIte]
                                    repeat' split
                                    all_goals first | rfl | exact runMutation_closed ..
                                  · by_cases h16 : s = "get-project-info"
                                    · subst h16
                                      simp only [dispatchCommand, Option.some.injEq, String.reduceEq, reduceIte]
                                      repeat' split
                                      all_goals first | rfl | exact runMutation_closed ..
                                    · by_cases h17 : s = "open-in-finder"
                                      · subst h17
                                        simp only [dispatchCommand, Option.some.injEq, String.reduceEq, reduceIte]
                                        repeat' split
                                        all_goals first | rfl | exact runMutation_closed ..
                                      · simp only [dispatchCommand, Option.some.injEq, h0, h1, h2, h3, h4, h5, h6, h7, h8, h9, h10, h11, h12, h13, h14, h15, h16, h17, reduceIte]

set_option linter.unreachableTactic false in
set_option linter.unusedTactic false in
/-- Helper: no arm of the command switch reassigns the stored project
binding. -/
theorem dispatchCommand_projectPath (exec : List String → String → SpawnOutcome)
    (parse : String → Option Json) (seenFile : List String) (st : ClientState)
    (response : Reply) (projectPath : String) (t : Option String) (pl : Payload) :
    (dispatchCommand exec parse seenFile st response projectPath t pl).client.projectPath
      = st.projectPath := by
  rcases t with _ | s
  · rfl
  · by_cases h0 : s = "subscribe-list"
    · subst h0
      simp only [dispatchCommand, Option.some.injEq, String.reduceEq, reduceIte]
      repeat' split
      all_goals first | rfl | exact runMutation_projectPath ..
    · by_cases h1 : s = "update-status"
      · subst h1
        simp only [dispatchCommand, Option.some.injEq, String.reduceEq, reduceIte]
        repeat' split
        all_goals first | rfl | exact runMutation_projectPath ..
      · by_cases h2 : s = "update-priority"
        · subst h2
          simp only [dispatchCommand, Option.some.injEq, String.reduceEq, reduceIte]
          repeat' split
          all_goals first | rfl | exact runMutation_projectPath ..
        · by_cases h3 : s = "update-title"
          · subst h3
            simp only [dispatchCommand, Option.some.injEq, String.reduceEq, reduceIte]
            repeat' split
            all_goals first | rfl | exact runMutation_projectPath ..
          · by_cases h4 : s = "update-type"
            · subst h4
              simp only [dispatchCommand, Option.some.injEq, String.reduceEq, reduceIte]
              repeat' split
              all_goals first | rfl | exact runMutation_projectPath ..
            · by_cases h5 : s = "update-estimate"
              · subst h5
                simp only [dispatchCommand, Option.some.injEq, String.reduceEq, reduceIte]
                repeat' split
                all_goals first | rfl | exact runMutation_projectPath ..
              · by_cases h6 : s = "update-external-ref"
                · subst h6
                  simp only [dispatchCommand, Option.some.injEq, String.reduceEq, reduceIte]
                  repeat' split
                  all_goals first | rfl | exact runMutation_projectPath ..
                · by_cases h7 : s = "create-issue"
                  · subst h7
                    simp only [dispatchCommand, Option.some.injEq, String.reduceEq, reduceIte]
                    repeat' split
                    all_goals first | rfl | exact runMutation_projectPath ..
                  · by_cases h8 : s = "label-add"
                    · subst h8
                      simp only [dispatchCommand, Option.some.injEq, String.reduceEq, reduceIte]
                      repeat' split
                      all_goals first | rfl | exact runMutation_projectPath ..
                    · by_cases h9 : s = "delete-issue"
                      · subst h9
                        simp only [dispatchCommand, Option.some.injEq, String.reduceEq, reduceIte]
                        repeat' split
                        all_goals first | rfl | exact runMutation_projectPath ..
                      · by_cases h10 : s = "label-remove"
                        · subst h10
                          simp only [dispatchCommand, Option.some.injEq, String.reduceEq, reduceIte]
                          repeat' split
                          all_goals first | rfl | exact runMutation_projectPath ..
                        · by_cases h11 : s = "show-issue"
                          · subst h11
                            simp only [dispatchCommand, Option.some.injEq, String.reduceEq, reduceIte]
                            repeat' split
                            all_goals first | rfl | exact runMutation_projectPath ..
                          · by_cases h12 : s = "add-comment"
                            · subst h12
                              simp only [dispatchCommand, Option.some.injEq, String.reduceEq, reduceIte]
                              repeat' split
                              all_goals first | rfl | exact runMutation_projectPath ..
                            · by_cases h13 : s = "get-seen"
                              · subst h13
                                simp only [dispatchCommand, Option.some.injEq, String.reduceEq, reduceIte]
                                repeat' split
                                all_goals first | rfl | exact runMutation_projectPath ..
                              · by_cases h14 : s = "mark-seen"
                                · subst h14
                                  simp only [dispatchCommand, Option.some.injEq, String.reduceEq, reduceIte]
                                  repeat' split
                                  all_goals first | rfl | exact runMutation_projectPath ..
                                · by_cases h15 : s = "mark-unseen"
                                  · subst h15
                                    simp only [dispatchCommand, Option.some.injEq, String.reduceEq, reduceIte]
                                    repeat' split
                                    all_goals first | rfl | exact runMutation_projectPath ..
                                  · by_cases h16 : s = "get-project-info"
                                    · subst h16
                                      simp only [dispatchCommand, Option.some.injEq, String.reduceEq, reduceIte]
                                      repeat' split
                                      all_goals first | rfl | exact runMutation_projectPath ..
                                    · by_cases h17 : s = "open-in-finder"
                                      · subst h17
                                        simp only [dispatchCommand, Option.some.injEq, String.reduceEq, reduceIte]
                                        repeat' split
                                        all_goals first | rfl | exact runMutation_projectPath ..
                                      · simp only [dispatchCommand, Option.some.injEq, h0, h1, h2, h3, h4, h5, h6, h7, h8, h9, h10, h11, h12, h13, h14, h15, h16, h17, reduceIte]

end BeadsUI
namespace BeadsUI

set_option linter.unreachableTactic false in
set_option linter.unusedTactic false in
/-- Helper: the message handler never closes the socket, whatever the
frame. -/
theorem handleFrame_closed (fs : FS) (home : String)
    (exec : List String → String → SpawnOutcome) (parse : String → Option Json)
    (seenFile : List String) (st : ClientState) (f : Frame) :
    (handleFrame fs home exec parse seenFile st f).closed = false := by
  cases f with
  | notJson => rfl
  | json m =>
    show (handleMessage fs home exec parse seenFile st m).closed = false
    unfold handleMessage
    dsimp only
    repeat' split
    all_goals first | rfl | exact dispatchCommand_closed ..

/-- C9 (confirmed): the stored binding `client.projectPath` changes only
through a successful set-project; every other frame — non-JSON input,
any other command (including one resolving an explicit payload path ad
hoc), and a set-project whose resolution fails or whose payload carries
no path — leaves it unchanged. -/
theorem c9_binding_mutated_only_by_set_project (fs : FS) (home : String)
    (exec : List String → String → SpawnOutcome) (parse : String → Option Json)
    (seenFile : List String) (st : ClientState) (f : Frame) :
    (handleFrame fs home exec parse seenFile st f).client.projectPath = st.projectPath ∨
    (∃ m p resolved, f = .json m ∧ m.type = some "set-project" ∧
      m.payload.bind Payload.path = some p ∧
      resolveProjectPath fs home p = some resolved ∧
      (handleFrame fs home exec parse seenFile st f).client.projectPath = some resolved ∧
      (handleFrame fs home exec parse seenFile st f).reply
        = some ⟨m.id, m.type, true, .projectInfo resolved (lastComponent resolved), none⟩) := by
  cases f with
  | notJson => exact Or.inl rfl
  | json m =>
    by_cases hsp : m.type = some "set-project"
    · rcases hpath : m.payload.bind Payload.path with _ | p
      · left
        show (handleMessage fs home exec parse seenFile st m).client.projectPath = _
        unfold handleMessage
        rw [if_pos hsp, hpath]
      · rcases hres : resolveProjectPath fs home p with _ | resolved
        · left
          show (handleMessage fs home exec parse seenFile st m).client.projectPath = _
          unfold handleMessage
          rw [if_pos hsp, hpath]
          dsimp only
          rw [hres]
        · right
          refine ⟨m, p, resolved, rfl, hsp, hpath, hres, ?_, ?_⟩
          · show (handleMessage fs home exec parse seenFile st m).client.projectPath = _
            unfold handleMessage
            rw [if_pos hsp, hpath]
            dsimp only
            rw [hres]
          · show (handleMessage fs home exec parse seenFile st m).reply = _
            unfold handleMessage
            rw [if_pos hsp, hpath]
            dsimp only
            rw [hres]
    · left
      show (handleMessage fs home exec parse seenFile st m).client.projectPath = _
      unfold handleMessage
      rw [if_neg hsp]
      dsimp only
      split
      · rfl
      · exact dispatchCommand_projectPath ..

end BeadsUI
namespace BeadsUI

/-- Helper: for a non-set-project command with no payload path on a
bound connection, the handler reduces to the command switch on the
stored binding. -/
theorem handleMessage_toDispatch (fs : FS) (home : String)
    (exec : List String → String → SpawnOutcome) (parse : String → Option Json)
    (seenFile : List String) (st : ClientState) (rid : Option String) (proj t : String)
    (pl : Payload) (ht : t ≠ "set-project") (hbound : st.projectPath = some proj)
    (hpath : pl.path = none) :
    handleMessage fs home exec parse seenFile st ⟨rid, some t, some pl⟩
      = dispatchCommand exec parse seenFile st ⟨rid, some t, true, .null, none⟩ proj
          (some t) pl := by
  unfold handleMessage
  rw [if_neg (by simpa using ht)]
  dsimp only
  have hb : (some pl).bind Payload.path = pl.path := rfl
  rw [hb, hpath]
  dsimp only
  rw [hbound]
  rfl

/-- C1 counterexample: update-priority with the required `priority`
field missing (payload only `{id: "x-1"}`) on a bound connection is not
rejected with `INVALID_PAYLOAD`: the handler spawns
`bd update x-1 --priority undefined` and, with the tool exiting 0,
replies `ok: true` and triggers a broadcast. -/
theorem c1_counterexample :
    handleMessage [] "/h" exec0 parseStub [] ⟨some "/p", []⟩
      { id := some "9", type := some "update-priority", payload := some { id := some "x-1" } }
    = ⟨some ⟨some "9", some "update-priority", true, .null, none⟩, ⟨some "/p", []⟩,
       [⟨"bd", ["update", "x-1", "--priority", "undefined"], some "/p"⟩], ["/p"], [],
       false⟩ := by decide

set_option linter.unreachableTactic false in
set_option linter.unusedTactic false in
/-- C1 (amended): measured against the spec catalog's required payload
fields, only update-status (`id`, `status`), update-title (`id`,
`title`), update-type (`id`, `type`), create-issue (`title`),
delete-issue (`id`) and add-comment (`id`, `content`) reject a missing
required field with `ok:false`/`INVALID_PAYLOAD`, no subprocess, no
broadcast and no state change. The other five mutating commands do not:
update-estimate and update-external-ref validate only `id` — a missing
`estimate` or `externalRef` spawns `bd` with the defaulted argument `0`
or the empty string and replies from the tool's exit status — and
update-priority, label-add and label-remove perform no local validation
at all, absent fields reaching the tool as the literal argument
`undefined` (see the counterexample). -/
theorem c1_payload_validation (fs : FS) (home : String)
    (exec : List String → String → SpawnOutcome) (parse : String → Option Json)
    (seenFile : List String) (st : ClientState) (rid : Option String) (proj : String)
    (pl : Payload) (hbound : st.projectPath = some proj) (hpath : pl.path = none) :
    (pl.id = none ∨ pl.status = none →
      (handleMessage fs home exec parse seenFile st ⟨rid, some "update-status", some pl⟩
        = ⟨some ⟨rid, some "update-status", false, .null,
              some ⟨"INVALID_PAYLOAD", "Missing id or status"⟩⟩, st, [], [], [], false⟩)) ∧
    (pl.id = none ∨ pl.title = none →
      (handleMessage fs home exec parse seenFile st ⟨rid, some "update-title", some pl⟩
        = ⟨some ⟨rid, some "update-title", false, .null,
              some ⟨"INVALID_PAYLOAD", "Missing id or title"⟩⟩, st, [], [], [], false⟩)) ∧
    (pl.id = none ∨ pl.type = none →
      (handleMessage fs home exec parse seenFile st ⟨rid, some "update-type", some pl⟩
        = ⟨some ⟨rid, some "update-type", false, .null,
              some ⟨"INVALID_PAYLOAD", "Missing id or type"⟩⟩, st, [], [], [], false⟩)) ∧
    (pl.title = none →
      (handleMessage fs home exec parse seenFile st ⟨rid, some "create-issue", some pl⟩
        = ⟨some ⟨rid, some "create-issue", false, .null,
              some ⟨"INVALID_PAYLOAD", "Missing title"⟩⟩, st, [], [], [], false⟩)) ∧
    (pl.id = none →
      (handleMessage fs home exec parse seenFile st ⟨rid, some "delete-issue", some pl⟩
        = ⟨some ⟨rid, some "delete-issue", false, .null,
              some ⟨"INVALID_PAYLOAD", "Missing id"⟩⟩, st, [], [], [], false⟩)) ∧
    (pl.id = none ∨ pl.content = none →
      (handleMessage fs home exec parse seenFile st ⟨rid, some "add-comment", some pl⟩
        = ⟨some ⟨rid, some "add-comment", false, .null,
              some ⟨"INVALID_PAYLOAD", "Missing id or content"⟩⟩, st, [], [], [], false⟩)) ∧
    (pl.id = none →
      (handleMessage fs home exec parse seenFile st ⟨rid, some "update-estimate", some pl⟩
        = ⟨some ⟨rid, some "update-estimate", false, .null,
              some ⟨"INVALID_PAYLOAD", "Missing id"⟩⟩, st, [], [], [], false⟩)) ∧
    (pl.id = none →
      (handleMessage fs home exec parse seenFile st ⟨rid, some "update-external-ref", some pl⟩
        = ⟨some ⟨rid, some "update-external-ref", false, .null,
              some ⟨"INVALID_PAYLOAD", "Missing id"⟩⟩, st, [], [], [], false⟩)) ∧
    (∀ i, pl.id = some i → i ≠ "" → pl.estimate = none →
      handleMessage fs home exec parse seenFile st ⟨rid, some "update-estimate", some pl⟩
        = runMutation exec st ⟨rid, some "update-estimate", true, .null, none⟩ proj
            ["update", i, "--estimate", "0"] "UPDATE_ERROR") ∧
    (∀ i, pl.id = some i → i ≠ "" → pl.externalRef = none →
      handleMessage fs home exec parse seenFile st ⟨rid, some "update-external-ref", some pl⟩
        = runMutation exec st ⟨rid, some "update-external-ref", true, .null, none⟩ proj
            ["update", i, "--external-ref", ""] "UPDATE_ERROR") ∧
    (handleMessage fs home exec parse seenFile st ⟨rid, some "update-priority", some pl⟩
      = runMutation exec st ⟨rid, some "update-priority", true, .null, none⟩ proj
          ["update", jsArgString pl.id, "--priority", jsStringInt pl.priority]
          "UPDATE_ERROR") ∧
    (handleMessage fs home exec parse seenFile st ⟨rid, some "label-add", some pl⟩
      = runMutation exec st ⟨rid, some "label-add", true, .null, none⟩ proj
          ["label", "add", jsArgString pl.id, jsArgString pl.label] "LABEL_ERROR") ∧
    (handleMessage fs home exec parse seenFile st ⟨rid, some "label-remove", some pl⟩
      = runMutation exec st ⟨rid, some "label-remove", true, .null, none⟩ proj
          ["label", "remove", jsArgString pl.id, jsArgString pl.label] "LABEL_ERROR") := by
  refine ⟨?_, ?_, ?_, ?_, ?_, ?_, ?_, ?_, ?_, ?_, ?_, ?_, ?_⟩
  · intro h
    rw [handleMessage_toDispatch fs home exec parse seenFile st rid proj _ pl
      (by decide) hbound hpath]
    have hguard : (truthy pl.id && truthy pl.status) = false := by
      first
      | rcases h with h | h <;> simp [truthy, h]
      | simp [truthy, h]
    simp only [dispatchCommand, Option.some.injEq, String.reduceEq, reduceIte, hguard,
      Bool.not_true, Bool.not_false, if_true, if_false]
    rfl
  · intro h
    rw [handleMessage_toDispatch fs home exec parse seenFile st rid proj _ pl
      (by decide) hbound hpath]
    have hguard : (truthy pl.id && truthy pl.title) = false := by
      first
      | rcases h with h | h <;> simp [truthy, h]
      | simp [truthy, h]
    simp only [dispatchCommand, Option.some.injEq, String.reduceEq, reduceIte, hguard,
      Bool.not_true, Bool.not_false, if_true, if_false]
    rfl
  · intro h
    rw [handleMessage_toDispatch fs home exec parse seenFile st rid proj _ pl
      (by decide) hbound hpath]
    have hguard : (truthy pl.id && truthy pl.type) = false := by
      first
      | rcases h with h | h <;> simp [truthy, h]
      | simp [truthy, h]
    simp only [dispatchCommand, Option.some.injEq, String.reduceEq, reduceIte, hguard,
      Bool.not_true, Bool.not_false, if_true, if_false]
    rfl
  · intro h
    rw [handleMessage_toDispatch fs home exec parse seenFile st rid proj _ pl
      (by decide) hbound hpath]
    have hguard : truthy pl.title = false := by
      first
      | rcases h with h | h <;> simp [truthy, h]
      | simp [truthy, h]
    simp only [dispatchCommand, Option.some.injEq, String.reduceEq, reduceIte, hguard,
      Bool.not_true, Bool.not_false, if_true, if_false]
    rfl
  · intro h
    rw [handleMessage_toDispatch fs home exec parse seenFile st rid proj _ pl
      (by decide) hbound hpath]
    have hguard : truthy pl.id = false := by
      first
      | rcases h with h | h <;> simp [truthy, h]
      | simp [truthy, h]
    simp only [dispatchCommand, Option.some.injEq, String.reduceEq, reduceIte, hguard,
      Bool.not_true, Bool.not_false, if_true, if_false]
    rfl
  · intro h
    rw [handleMessage_toDispatch fs home exec parse seenFile st rid proj _ pl
      (by decide) hbound hpath]
    have hguard : (truthy pl.id && truthy pl.content) = false := by
      first
      | rcases h with h | h <;> simp [truthy, h]
      | simp [truthy, h]
    simp only [dispatchCommand, Option.some.injEq, String.reduceEq, reduceIte, hguard,
      Bool.not_true, Bool.not_false, if_true, if_false]
    rfl
  · intro h
    rw [handleMessage_toDispatch fs home exec parse seenFile st rid proj _ pl
      (by decide) hbound hpath]
    have hguard : truthy pl.id = false := by
      first
      | rcases h with h | h <;> simp [truthy, h]
      | simp [truthy, h]
    simp only [dispatchCommand, Option.some.injEq, String.reduceEq, reduceIte, hguard,
      Bool.not_true, Bool.not_false, if_true, if_false]
    rfl
  · intro h
    rw [handleMessage_toDispatch fs home exec parse seenFile st rid proj _ pl
      (by decide) hbound hpath]
    have hguard : truthy pl.id = false := by
      first
      | rcases h with h | h <;> simp [truthy, h]
      | simp [truthy, h]
    simp only [dispatchCommand, Option.some.injEq, String.reduceEq, reduceIte, hguard,
      Bool.not_true, Bool.not_false, if_true, if_false]
    rfl
  · intro i hi hine hest
    rw [handleMessage_toDispatch fs home exec parse seenFile st rid proj _ pl
      (by decide) hbound hpath]
    have hguard : truthy pl.id = true := by simp [truthy, hi, hine]
    simp only [dispatchCommand, Option.some.injEq, String.reduceEq, reduceIte, hguard,
      Bool.not_true, Bool.not_false, if_true, if_false]
    rw [hi, hest]
    rfl
  · intro i hi hine hext
    rw [handleMessage_toDispatch fs home exec parse seenFile st rid proj _ pl
      (by decide) hbound hpath]
    have hguard : truthy pl.id = true := by simp [truthy, hi, hine]
    simp only [dispatchCommand, Option.some.injEq, String.reduceEq, reduceIte, hguard,
      Bool.not_true, Bool.not_false, if_true, if_false]
    rw [hi, hext]
    rfl
  · rw [handleMessage_toDispatch fs home exec parse seenFile st rid proj _ pl
      (by decide) hbound hpath]
    simp only [dispatchCommand, Option.some.injEq, String.reduceEq, reduceIte]
  · rw [handleMessage_toDispatch fs home exec parse seenFile st rid proj _ pl
      (by decide) hbound hpath]
    simp only [dispatchCommand, Option.some.injEq, String.reduceEq, reduceIte]
  · rw [handleMessage_toDispatch fs home exec parse seenFile st rid proj _ pl
      (by decide) hbound hpath]
    simp only [dispatchCommand, Option.some.injEq, String.reduceEq, reduceIte]

/-- C1 witness: update-status with `id` absent is rejected locally with
no subprocess, while update-estimate with `estimate` absent spawns
`bd update x-1 --estimate 0`. -/
theorem c1_witness :
    ((ClientState.mk (some "/p") []).projectPath = some "/p" ∧
     Payload.path { status := some "closed" } = none ∧
     Payload.id { status := some "closed" } = none ∧
     Payload.estimate { id := some "x-1" } = none) ∧
    handleMessage [] "/h" exec0 parseStub [] ⟨some "/p", []⟩
      ⟨some "7", some "update-status", some { status := some "closed" }⟩
      = ⟨some ⟨some "7", some "update-status", false, .null,
            some ⟨"INVALID_PAYLOAD", "Missing id or status"⟩⟩,
         ⟨some "/p", []⟩, [], [], [], false⟩ ∧
    handleMessage [] "/h" exec0 parseStub [] ⟨some "/p", []⟩
      ⟨some "8", some "update-estimate", some { id := some "x-1" }⟩
      = runMutation exec0 ⟨some "/p", []⟩
          ⟨some "8", some "update-estimate", true, .null, none⟩ "/p"
          ["update", "x-1", "--estimate", "0"] "UPDATE_ERROR" :=
  ⟨⟨by decide, by decide, by decide, by decide⟩,
   (c1_payload_validation [] "/h" exec0 parseStub [] ⟨some "/p", []⟩ (some "7") "/p"
       { status := some "closed" } (by decide) (by decide)).1 (Or.inl (by decide)),
   (c1_payload_validation [] "/h" exec0 parseStub [] ⟨some "/p", []⟩ (some "8") "/p"
       { id := some "x-1" } (by decide) (by decide)).2.2.2.2.2.2.2.2.1 "x-1" (by decide)
     (by decide) (by decide)⟩

end BeadsUI
namespace BeadsUI

/-- C2 counterexample: a well-formed JSON frame missing both `id` and
`type` on an unbound connection does produce a reply — `ok:false` with
`NO_PROJECT` (and `id`/`type` echoed as absent) — contradicting the
claim that such frames get no reply. -/
theorem c2_counterexample :
    (handleFrame [] "/h" exec0 parseStub [] ⟨none, []⟩ (.json {})).reply
      = some ⟨none, none, false, .null,
          some ⟨"NO_PROJECT",
            "No project path set. Send set-project first or include path in payload."⟩⟩ := by
  decide

/-- C2 (amended): a non-JSON frame is dropped silently — no reply, no
state change, no subprocess — and no frame of any kind terminates the
connection; but a JSON frame missing `id`/`type` is still dispatched:
with no resolvable project it draws a `NO_PROJECT` reply, and on a bound
connection a missing `type` draws an `UNKNOWN_TYPE` reply interpolating
`undefined`, the absent fields being echoed as absent. -/
theorem c2_malformed_input_handling (fs : FS) (home : String)
    (exec : List String → String → SpawnOutcome) (parse : String → Option Json)
    (seenFile : List String) (st : ClientState) :
    (handleFrame fs home exec parse seenFile st .notJson = ⟨none, st, [], [], [], false⟩) ∧
    (∀ f, (handleFrame fs home exec parse seenFile st f).closed = false) ∧
    (∀ rid, st.projectPath = none →
      handleFrame fs home exec parse seenFile st (.json ⟨rid, none, none⟩)
        = ⟨some ⟨rid, none, false, .null,
              some ⟨"NO_PROJECT",
                "No project path set. Send set-project first or include path in payload."⟩⟩,
           st, [], [], [], false⟩) ∧
    (∀ rid proj, st.projectPath = some proj →
      handleFrame fs home exec parse seenFile st (.json ⟨rid, none, none⟩)
        = ⟨some ⟨rid, none, false, .null,
              some ⟨"UNKNOWN_TYPE", "Unknown message type: undefined"⟩⟩,
           st, [], [], [], false⟩) := by
  refine ⟨rfl, handleFrame_closed fs home exec parse seenFile st, fun rid h => ?_, fun rid proj h => ?_⟩
  · show handleMessage fs home exec parse seenFile st ⟨rid, none, none⟩ = _
    unfold handleMessage
    rw [if_neg (by simp)]
    dsimp only
    rw [h]
    rfl
  · show handleMessage fs home exec parse seenFile st ⟨rid, none, none⟩ = _
    unfold handleMessage
    rw [if_neg (by simp)]
    dsimp only
    rw [h]
    rfl

/-- C2 witness: the amended behavior at concrete frames and states. -/
theorem c2_witness :
    (handleFrame [] "/h" exec0 parseStub [] ⟨none, []⟩ .notJson
      = ⟨none, ⟨none, []⟩, [], [], [], false⟩) ∧
    ((ClientState.mk (some "/p") []).projectPath = some "/p" ∧
      handleFrame [] "/h" exec0 parseStub [] ⟨some "/p", []⟩ (.json ⟨some "5", none, none⟩)
        = ⟨some ⟨some "5", none, false, .null,
              some ⟨"UNKNOWN_TYPE", "Unknown message type: undefined"⟩⟩,
           ⟨some "/p", []⟩, [], [], [], false⟩) :=
  ⟨(c2_malformed_input_handling [] "/h" exec0 parseStub [] ⟨none, []⟩).1,
   ⟨by decide,
    (c2_malformed_input_handling [] "/h" exec0 parseStub [] ⟨some "/p", []⟩).2.2.2
      (some "5") "/p" (by decide)⟩⟩

/-- C7 counterexample: a well-formed envelope with the unrecognized type
`bogus` on an unbound connection is answered with `NO_PROJECT`, not
`UNKNOWN_TYPE`: the project check precedes the command switch. -/
theorem c7_counterexample :
    handleMessage [] "/h" exec0 parseStub [] ⟨none, []⟩
      { id := some "1", type := some "bogus", payload := none }
    = ⟨some ⟨some "1", some "bogus", false, .null,
          some ⟨"NO_PROJECT",
            "No project path set. Send set-project first or include path in payload."⟩⟩,
       ⟨none, []⟩, [], [], [], false⟩ := by decide

/-- C7 (amended): a well-formed request whose type is outside the
command catalog is answered `ok:false` with `UNKNOWN_TYPE` — provided an
effective project is resolved (here: a bound connection and no payload
path); with no resolvable project the `NO_PROJECT` reply takes
precedence (see the counterexample). -/
theorem c7_unknown_type_reply (fs : FS) (home : String)
    (exec : List String → String → SpawnOutcome) (parse : String → Option Json)
    (seenFile : List String) (st : ClientState) (rid : Option String) (proj t : String)
    (pl : Payload)
    (ht : t ∉ ["set-project", "subscribe-list", "update-status", "update-priority",
      "update-title", "update-type", "update-estimate", "update-external-ref",
      "create-issue", "label-add", "delete-issue", "label-remove", "show-issue",
      "add-comment", "get-seen", "mark-seen", "mark-unseen", "get-project-info",
      "open-in-finder"])
    (hbound : st.projectPath = some proj) (hpath : pl.path = none) :
    handleMessage fs home exec parse seenFile st ⟨rid, some t, some pl⟩
      = ⟨some ⟨rid, some t, false, .null,
            some ⟨"UNKNOWN_TYPE", "Unknown message type: " ++ t⟩⟩,
         st, [], [], [], false⟩ := by
  simp only [List.mem_cons, List.mem_singleton, List.not_mem_nil, or_false, not_or] at ht
  obtain ⟨hA, h0, h1, h2, h3, h4, h5, h6, h7, h8, h9, h10, h11, h12, h13, h14, h15, h16,
    h17⟩ := ht
  rw [handleMessage_toDispatch fs home exec parse seenFile st rid proj t pl hA hbound hpath]
  simp only [dispatchCommand, Option.some.injEq, h0, h1, h2, h3, h4, h5, h6, h7, h8, h9,
    h10, h11, h12, h13, h14, h15, h16, h17, reduceIte]
  rfl

/-- C7 witness: the unknown type `bogus` on a bound connection. -/
theorem c7_witness :
    ("bogus" ∉ ["set-project", "subscribe-list", "update-status", "update-priority",
        "update-title", "update-type", "update-estimate", "update-external-ref",
        "create-issue", "label-add", "delete-issue", "label-remove", "show-issue",
        "add-comment", "get-seen", "mark-seen", "mark-unseen", "get-project-info",
        "open-in-finder"] ∧
      (ClientState.mk (some "/p") []).projectPath = some "/p" ∧
      (Payload.path {}) = none) ∧
    handleMessage [] "/h" exec0 parseStub [] ⟨some "/p", []⟩
      ⟨some "2", some "bogus", some {}⟩
      = ⟨some ⟨some "2", some "bogus", false, .null,
            some ⟨"UNKNOWN_TYPE", "Unknown message type: bogus"⟩⟩,
         ⟨some "/p", []⟩, [], [], [], false⟩ :=
  ⟨⟨by decide, by decide, by decide⟩,
   c7_unknown_type_reply [] "/h" exec0 parseStub [] ⟨some "/p", []⟩ (some "2") "/p" "bogus"
     {} (by decide) (by decide) (by decide)⟩

end BeadsUI
namespace BeadsUI

set_option linter.unreachableTactic false in
set_option linter.unusedTactic false in
/-- Helper: the add-comment arm of the command switch never triggers a
broadcast, on any path. -/
theorem dispatchCommand_addComment_broadcasts (exec : List String → String → SpawnOutcome)
    (parse : String → Option Json) (seenFile : List String) (st : ClientState)
    (response : Reply) (projectPath : String) (pl : Payload) :
    (dispatchCommand exec parse seenFile st response projectPath (some "add-comment")
      pl).broadcasts = [] := by
  simp only [dispatchCommand, Option.some.injEq, String.reduceEq, reduceIte]
  repeat' split
  all_goals rfl

/-- C8 counterexample: a successful add-comment (both tool invocations
exit 0) triggers no broadcast: `broadcasts` is empty while the reply is
`ok:true` with the refreshed detail, unlike every other mutating
command. -/
theorem c8_counterexample :
    handleMessage [] "/h" exec0 parseStub [] ⟨some "/p", []⟩
      { id := some "3", type := some "add-comment",
        payload := some { id := some "x", content := some "hi" } }
    = ⟨some ⟨some "3", some "add-comment", true, .record none, none⟩, ⟨some "/p", []⟩,
       [⟨"bd", ["comments", "add", "x", "hi"], some "/p"⟩,
        ⟨"bd", ["show", "x", "--json"], some "/p"⟩],
       [], [], false⟩ := by decide

set_option linter.unreachableTactic false in
set_option linter.unusedTactic false in
/-- C8 (amended): add-comment never triggers the Broadcast Engine — on
any add-comment message, successful or not, the broadcast list is empty;
on the success path the handler instead issues a second Gateway
invocation (`bd show <id> --json`) to return the refreshed detail, and
the reply is `ok:true`. -/
theorem c8_add_comment_no_broadcast (fs : FS) (home : String)
    (exec : List String → String → SpawnOutcome) (parse : String → Option Json)
    (seenFile : List String) (st : ClientState) (rid : Option String) (proj : String)
    (pl : Payload) (hbound : st.projectPath = some proj) (hpath : pl.path = none) :
    (∀ m : Msg, m.type = some "add-comment" →
      (handleFrame fs home exec parse seenFile st (.json m)).broadcasts = []) ∧
    (∀ i c, pl.id = some i → i ≠ "" → pl.content = some c → c ≠ "" →
      (runBd (exec ["comments", "add", i, c] proj)).code = 0 →
      (handleMessage fs home exec parse seenFile st ⟨rid, some "add-comment", some pl⟩).spawns
          = [⟨"bd", ["comments", "add", i, c], some proj⟩,
             ⟨"bd", ["show", i, "--json"], some proj⟩] ∧
      ∃ rep, (handleMessage fs home exec parse seenFile st
          ⟨rid, some "add-comment", some pl⟩).reply = some rep ∧ rep.ok = true) := by
  constructor
  · intro m hm
    show (handleMessage fs home exec parse seenFile st m).broadcasts = []
    unfold handleMessage
    rw [if_neg (by rw [hm]; decide)]
    dsimp only
    rw [hm]
    repeat' split
    all_goals first | rfl | exact dispatchCommand_addComment_broadcasts ..
  · intro i c hi hine hc hcne hcode
    rw [handleMessage_toDispatch fs home exec parse seenFile st rid proj _ pl
      (by decide) hbound hpath]
    simp only [dispatchCommand, Option.some.injEq, String.reduceEq, reduceIte]
    rw [hi, hc]
    simp only [truthy, Option.getD_some]
    rw [if_neg (by simp [hine, hcne])]
    rw [if_neg (by simp [hcode])]
    split
    · exact ⟨rfl, ⟨_, rfl, rfl⟩⟩
    · exact ⟨rfl, ⟨_, rfl, rfl⟩⟩

/-- C8 witness: the amended statement at the concrete successful
add-comment of the counterexample. -/
theorem c8_witness :
    ((Msg.type ⟨some "3", some "add-comment", some { id := some "x", content := some "hi" }⟩
        = some "add-comment") ∧
     (ClientState.mk (some "/p") []).projectPath = some "/p") ∧
    (handleFrame [] "/h" exec0 parseStub [] ⟨some "/p", []⟩
      (.json ⟨some "3", some "add-comment",
        some { id := some "x", content := some "hi" }⟩)).broadcasts = [] :=
  ⟨⟨by decide, by decide⟩,
   (c8_add_comment_no_broadcast [] "/h" exec0 parseStub [] ⟨some "/p", []⟩ (some "3") "/p"
       { id := some "x", content := some "hi" } (by decide) (by decide)).1
     ⟨some "3", some "add-comment", some { id := some "x", content := some "hi" }⟩
     (by decide)⟩

end BeadsUI
